import Mathlib

/-!
Verification development for the handyman-ai-phone-assistant backend.

The repository is a small Node/Express server in three near-identical
revisions of one file.  The most complete revision (called the *current*
variant below) serves:
  - a WebSocket chat handler at /ws,
  - a Twilio voice webhook at /twilio-voice (any HTTP method),
  - two OpenAI completion helpers (chat and phone),
  - a knowledge-base loader with a hard-coded fallback record,
  - an XML escaper for text embedded in TwiML <Say> elements.
An earlier revision (the *legacy* variant, POST-only webhook) differs in
the credential-missing voice branch and in some prompt wording.

Strings are modelled as `List Char`.  JavaScript values reachable from a
parsed JSON payload are modelled by the inductive `Js`; evaluation steps
that throw a TypeError in JavaScript (property access on null/undefined,
calling .trim() on a non-string) are modelled in the `Except JsFault`
monad.  The remote completion API is modelled as the spec directs, as a
black-box response carrying the HTTP success flag, status, raw body text
and the optionally-chained `choices?.[0]?.message?.content` field.
-/

set_option maxRecDepth 4000

abbrev Str := List Char

/-- Whitespace test used by the model of JavaScript String.prototype.trim
(the common whitespace characters; the claims only use trimming on
concrete inputs and on emptiness tests). -/
def isWsChar (c : Char) : Bool :=
  c = ' ' || c = '\t' || c = '\n' || c = '\r'

/-- Model of JavaScript String.prototype.trim: drop whitespace from both
ends. -/
def trimStr (s : Str) : Str :=
  ((s.dropWhile isWsChar).reverse.dropWhile isWsChar).reverse

/-- Model of the JavaScript expression `x || d` for a possibly-absent
string `x` (absent, i.e. undefined, and the empty string are both falsy,
so both yield the default). -/
def jsOrStr (x : Option Str) (d : Str) : Str :=
  match x with
  | some s => if s = [] then d else s
  | none => d

/-- Model of Array.prototype.join with a separator (empty array joins to
the empty string, as in JavaScript). -/
def joinSep (sep : Str) : List Str → Str
  | [] => []
  | [x] => x
  | x :: y :: rest => x ++ sep ++ joinSep sep (y :: rest)

/-- Does `s` start with the pattern `p`? -/
def startsWith : Str → Str → Bool
  | [], _ => true
  | _ :: _, [] => false
  | p :: ps, x :: xs => p = x && startsWith ps xs

/-- Does `s` contain the pattern `p` as a contiguous substring? -/
def containsSub (p : Str) : Str → Bool
  | [] => startsWith p []
  | x :: rest => startsWith p (x :: rest) || containsSub p rest

/-- Global single-character replacement, the model of
String.prototype.replace with a `/c/g` regex and literal replacement
string. -/
def replaceChar (c : Char) (r : Str) : Str → Str
  | [] => []
  | x :: rest => (if x = c then r else [x]) ++ replaceChar c r rest

/-- escapeForXml from the source: replace `&` first, then `<`, then `>`,
each globally, by its XML entity. -/
def escapeForXml (text : Str) : Str :=
  replaceChar '>' ("&gt;".data)
    (replaceChar '<' ("&lt;".data)
      (replaceChar '&' ("&amp;".data) text))

/-- Single-pass description of the escaper: what each input character
contributes to the output. -/
def escChar (c : Char) : Str :=
  if c = '&' then "&amp;".data
  else if c = '<' then "&lt;".data
  else if c = '>' then "&gt;".data
  else [c]

/-- A string is well-escaped when it has no `<` or `>` at all and every
`&` begins one of the three entities `&amp;` `&lt;` `&gt;`. -/
def wellEscaped : Str → Bool
  | [] => true
  | c :: rest =>
    if c = '<' || c = '>' then false
    else if c = '&' then
      match rest with
      | 'a' :: 'm' :: 'p' :: ';' :: r => wellEscaped r
      | 'l' :: 't' :: ';' :: r => wellEscaped r
      | 'g' :: 't' :: ';' :: r => wellEscaped r
      | _ => false
    else wellEscaped rest

-- ------------------------------------------------------------------
-- Lemmas about the string utilities and the escaper
-- ------------------------------------------------------------------

theorem replaceChar_append (c : Char) (r : Str) (xs ys : Str) :
    replaceChar c r (xs ++ ys) = replaceChar c r xs ++ replaceChar c r ys := by
  induction xs with
  | nil => simp [replaceChar]
  | cons x xs ih => simp [replaceChar, ih]

theorem escapeForXml_eq_flatMap (s : Str) :
    escapeForXml s = s.flatMap escChar := by
  induction s with
  | nil => rfl
  | cons c s ih =>
    show replaceChar '>' _ (replaceChar '<' _ (replaceChar '&' _ (c :: s))) = _
    have hc : replaceChar '&' ("&amp;".data) (c :: s)
        = (if c = '&' then "&amp;".data else [c]) ++ replaceChar '&' ("&amp;".data) s := by
      simp [replaceChar]
    rw [hc, replaceChar_append, replaceChar_append, List.flatMap_cons, ← ih]
    by_cases h1 : c = '&'
    · subst h1; rfl
    · by_cases h2 : c = '<'
      · subst h2; simp [escChar, replaceChar, escapeForXml]
      · by_cases h3 : c = '>'
        · subst h3; simp [escChar, replaceChar, escapeForXml]
        · simp [escChar, replaceChar, escapeForXml, h1, h2, h3]

theorem lt_not_mem_escChar (c : Char) : '<' ∉ escChar c := by
  unfold escChar
  split_ifs with h1 h2 h3
  · decide
  · decide
  · decide
  · intro h
    exact h2 (List.mem_singleton.mp h).symm

theorem gt_not_mem_escChar (c : Char) : '>' ∉ escChar c := by
  unfold escChar
  split_ifs with h1 h2 h3
  · decide
  · decide
  · decide
  · intro h
    exact h3 (List.mem_singleton.mp h).symm

theorem lt_not_mem_escapeForXml (s : Str) : '<' ∉ escapeForXml s := by
  rw [escapeForXml_eq_flatMap]
  intro h
  obtain ⟨c, _, hc⟩ := List.mem_flatMap.mp h
  exact lt_not_mem_escChar c hc

theorem gt_not_mem_escapeForXml (s : Str) : '>' ∉ escapeForXml s := by
  rw [escapeForXml_eq_flatMap]
  intro h
  obtain ⟨c, _, hc⟩ := List.mem_flatMap.mp h
  exact gt_not_mem_escChar c hc

theorem wellEscaped_flatMap (s : Str) : wellEscaped (s.flatMap escChar) = true := by
  induction s with
  | nil => rfl
  | cons c s ih =>
    rw [List.flatMap_cons]
    by_cases h1 : c = '&'
    · subst h1
      show wellEscaped ('&' :: 'a' :: 'm' :: 'p' :: ';' :: s.flatMap escChar) = true
      simpa [wellEscaped] using ih
    · by_cases h2 : c = '<'
      · subst h2
        show wellEscaped ('&' :: 'l' :: 't' :: ';' :: s.flatMap escChar) = true
        simpa [wellEscaped] using ih
      · by_cases h3 : c = '>'
        · subst h3
          show wellEscaped ('&' :: 'g' :: 't' :: ';' :: s.flatMap escChar) = true
          simpa [wellEscaped] using ih
        · have : escChar c = [c] := by simp [escChar, h1, h2, h3]
          rw [this]
          show wellEscaped (c :: s.flatMap escChar) = true
          unfold wellEscaped
          simp only [h1, h2, h3]
          simp [ih]

theorem startsWith_self_append (p t : Str) : startsWith p (p ++ t) = true := by
  induction p with
  | nil => rfl
  | cons c p ih => simp [startsWith, ih]

theorem containsSub_append_right (p ys : Str) (xs : Str)
    (h : containsSub p ys = true) : containsSub p (xs ++ ys) = true := by
  induction xs with
  | nil => simpa using h
  | cons x xs ih =>
    show (startsWith p (x :: (xs ++ ys)) || containsSub p (xs ++ ys)) = true
    simp [ih]

theorem containsSub_of_parts (p pre post : Str) :
    containsSub p (pre ++ (p ++ post)) = true := by
  apply containsSub_append_right
  cases hp : p ++ post with
  | nil =>
    have : p = [] := by
      cases p with
      | nil => rfl
      | cons c q => simp at hp
    subst this; rfl
  | cons c rest =>
    show (startsWith p (c :: rest) || containsSub p rest) = true
    rw [← hp, startsWith_self_append]
    rfl

theorem startsWith_of_leading (p q s : Str) (hpq : p.isPrefixOf q = true)
    (h : startsWith q s = true) : startsWith p s = true := by
  induction p generalizing q s with
  | nil => rfl
  | cons c p ih =>
    cases q with
    | nil => simp [List.isPrefixOf] at hpq
    | cons d q =>
      cases s with
      | nil => simp [startsWith] at h
      | cons x s =>
        simp only [List.isPrefixOf, Bool.and_eq_true, beq_iff_eq] at hpq
        simp only [startsWith, Bool.and_eq_true, decide_eq_true_eq] at h
        obtain ⟨rfl, hpq⟩ := hpq
        obtain ⟨rfl, h⟩ := h
        simp [startsWith, ih q s hpq h]

theorem containsSub_of_leading (p q s : Str) (hpq : p.isPrefixOf q = true)
    (h : containsSub q s = true) : containsSub p s = true := by
  induction s with
  | nil =>
    have : q = [] := by
      cases q with
      | nil => rfl
      | cons d q => simp [containsSub, startsWith] at h
    subst this
    have : p = [] := by
      cases p with
      | nil => rfl
      | cons c p => simp [List.isPrefixOf] at hpq
    subst this; rfl
  | cons x s ih =>
    simp only [containsSub, Bool.or_eq_true] at h ⊢
    cases h with
    | inl h => exact Or.inl (startsWith_of_leading p q _ hpq h)
    | inr h => exact Or.inr (ih h)

theorem not_containsSub_of_leading (p q s : Str) (hpq : p.isPrefixOf q = true)
    (h : containsSub p s = false) : containsSub q s = false := by
  cases hq : containsSub q s with
  | false => rfl
  | true => rw [containsSub_of_leading p q s hpq hq] at h; cases h

theorem containsSub_pair_of_mem (a b : Char) (s : Str)
    (h : containsSub [a, b] s = true) : a ∈ s := by
  induction s with
  | nil => simp [containsSub, startsWith] at h
  | cons x s ih =>
    simp only [containsSub, Bool.or_eq_true] at h
    cases h with
    | inl h =>
      simp only [startsWith, Bool.and_eq_true, decide_eq_true_eq] at h
      exact h.1 ▸ List.mem_cons_self x s
    | inr h => exact List.mem_cons_of_mem x (ih h)

theorem containsSub_pair_eq_false_of_not_mem (a b : Char) (s : Str)
    (h : a ∉ s) : containsSub [a, b] s = false := by
  cases hc : containsSub [a, b] s with
  | false => rfl
  | true => exact absurd (containsSub_pair_of_mem a b s hc) h

theorem getLast?_ne_of_not_mem (a : Char) (s : Str) (h : a ∉ s) :
    s.getLast? ≠ some a := by
  intro hl
  obtain ⟨hne, heq⟩ := List.mem_getLast?_eq_getLast (Option.mem_def.mpr hl)
  exact h (heq ▸ List.getLast_mem hne)

theorem containsSub_pair_append (a b : Char) :
    ∀ (xs ys : Str),
    containsSub [a, b] xs = false →
    containsSub [a, b] ys = false →
    (xs.getLast? ≠ some a ∨ ys.head? ≠ some b) →
    containsSub [a, b] (xs ++ ys) = false := by
  intro xs
  induction xs with
  | nil =>
    intro ys _ h2 _
    simpa using h2
  | cons x xs ih =>
    intro ys h1 h2 h3
    have h1u : (startsWith [a, b] (x :: xs) || containsSub [a, b] xs) = false := h1
    have hor := Bool.or_eq_false_iff.mp h1u
    have hsw : startsWith [a, b] (x :: xs) = false := hor.1
    have h1' : containsSub [a, b] xs = false := hor.2
    show (startsWith [a, b] (x :: (xs ++ ys)) || containsSub [a, b] (xs ++ ys)) = false
    have htail : containsSub [a, b] (xs ++ ys) = false := by
      apply ih ys h1' h2
      cases xs with
      | nil => exact Or.inl (by simp)
      | cons x' xs' =>
        cases h3 with
        | inl h => exact Or.inl (by simpa [List.getLast?_cons_cons] using h)
        | inr h => exact Or.inr h
    have hhead : startsWith [a, b] (x :: (xs ++ ys)) = false := by
      by_cases hxa : x = a
      · subst hxa
        cases xs with
        | nil =>
          cases h3 with
          | inl h => simp at h
          | inr h =>
            cases ys with
            | nil => simpa using hsw
            | cons y ys' =>
              have hby : ¬(b = y) := by
                intro hh
                exact h (by simp [hh])
              simp [startsWith, hby]
        | cons x' xs' =>
          simp only [startsWith, List.cons_append] at hsw ⊢
          exact hsw
      · have hax : ¬(a = x) := fun hh => hxa hh.symm
        simp [startsWith, hax]
    rw [hhead, htail]
    rfl

-- ------------------------------------------------------------------
-- Data model: JSON values reachable from JSON.parse, and evaluation
-- steps that can throw a TypeError in JavaScript
-- ------------------------------------------------------------------

/-- Values a parsed JSON payload can take (undefined is included because
property access on a non-object yields it). -/
inductive Js where
  | undefined : Js
  | null : Js
  | bool : Bool → Js
  | num : Int → Js
  | str : Str → Js
  | arr : List Js → Js
  | obj : List (Str × Js) → Js

/-- The only fault the modelled handler code can raise: a JavaScript
TypeError (property access on null/undefined, or calling a string method
on a non-string). -/
inductive JsFault where
  | typeError : JsFault
deriving DecidableEq

/-- Field lookup in a parsed JSON object (JSON.parse already collapses
duplicate keys, so the field list has unique keys; a missing key reads as
undefined). -/
def lookupField : List (Str × Js) → Str → Js
  | [], _ => .undefined
  | (k, v) :: rest, key => if k = key then v else lookupField rest key

/-- Model of the JavaScript property access `v.key`: throws on
null/undefined, looks up on objects, yields undefined on other
primitives. -/
def getProp : Js → Str → Except JsFault Js
  | .undefined, _ => .error .typeError
  | .null, _ => .error .typeError
  | .obj fields, key => .ok (lookupField fields key)
  | _, _ => .ok .undefined

/-- JavaScript truthiness for the modelled values. -/
def truthy : Js → Bool
  | .undefined => false
  | .null => false
  | .bool b => b
  | .num n => n != 0
  | .str s => !s.isEmpty
  | .arr _ => true
  | .obj _ => true

/-- Model of calling `.trim()` on a JavaScript value: only strings have
the method; on anything else the call throws a TypeError. -/
def callTrim : Js → Except JsFault Str
  | .str s => .ok (trimStr s)
  | _ => .error .typeError

-- ------------------------------------------------------------------
-- Knowledge base
-- ------------------------------------------------------------------

/-- The knowledge record as it comes out of JSON.parse: every field may
be absent (none).  The loader does not normalize anything. -/
structure KBSource where
  business_name : Option Str := none
  location : Option Str := none
  summary : Option Str := none
  service_area : Option (List Str) := none
  hours : Option Str := none
  services : Option (List Str) := none
  pricing_notes : Option (List Str) := none
  booking_process : Option (List Str) := none
  faqs : Option (List (Str × Str)) := none
  contact_phone : Option Str := none

/-- The hard-coded fallback record assigned when knowledge-base.json is
missing or malformed (current variant).  Note it populates only six
fields; services, pricing_notes, booking_process and faqs are absent even
in the fallback. -/
def defaultKnowledgeBase : KBSource where
  business_name := some "Handyman of Fairfax".data
  location := some "Fairfax, VA".data
  summary := some ("Local handyman service for small to medium home repairs, minor carpentry, TV mounting, and general home fixes.".data)
  service_area := some ["Fairfax".data, "Fairfax Station".data, "Burke".data, "Springfield".data]
  hours := some "Monday–Saturday, 8:00 AM – 6:00 PM".data
  contact_phone := some "(555) 555-5555".data

/-- Model of the knowledge-base load at startup: on a successful read and
parse the parsed record is used as-is; on any failure the hard-coded
fallback is used.  `none` stands for a missing or malformed file. -/
def loadKnowledgeBase : Option KBSource → KBSource
  | some parsed => parsed
  | none => defaultKnowledgeBase

/-- The normalization the spec describes (absent string fields become the
empty string, absent list fields the empty sequence).  The code never
applies this at load time; it is used here to state what the use sites do
achieve. -/
def normalizeKB (kb : KBSource) : KBSource where
  business_name := some (kb.business_name.getD [])
  location := some (kb.location.getD [])
  summary := some (kb.summary.getD [])
  service_area := some (kb.service_area.getD [])
  hours := some (kb.hours.getD [])
  services := some (kb.services.getD [])
  pricing_notes := some (kb.pricing_notes.getD [])
  booking_process := some (kb.booking_process.getD [])
  faqs := some (kb.faqs.getD [])
  contact_phone := some (kb.contact_phone.getD [])

-- ------------------------------------------------------------------
-- Prompt builder (buildSystemPrompt in the current variant)
-- ------------------------------------------------------------------

/-- Model of `Array.isArray(x) ? x.join(sep) : ""` for a possibly-absent
list field. -/
def joinIfArray (x : Option (List Str)) (sep : Str) : Str :=
  match x with
  | some items => joinSep sep items
  | none => []

/-- Model of the FAQ rendering:
`Array.isArray(kb.faqs) ? kb.faqs.map(f => ...).join("\n\n") : ""`. -/
def renderFaqs (x : Option (List (Str × Str))) : Str :=
  match x with
  | some faqs =>
      joinSep "\n\n".data
        (faqs.map (fun f => "Q: ".data ++ f.1 ++ "\nA: ".data ++ f.2))
  | none => []

/-- buildSystemPrompt from the current variant: one template, a channel
flag selecting the phone or chat style line, trimmed at the end. -/
def buildSystemPrompt (kb : KBSource) (forPhone : Bool) : Str :=
  trimStr (
    "\nYou are the intake and Q&A assistant for a local handyman service called \"".data
    ++ jsOrStr kb.business_name "Handyman of Fairfax".data
    ++ "\" in ".data
    ++ jsOrStr kb.location "Fairfax, VA".data
    ++ ".\n\nYou answer questions about:\n- Services provided\n- Service areas\n- Hours\n- Typical pricing ranges\n- How booking and scheduling works\n\nBusiness knowledge:\nSUMMARY:\n".data
    ++ jsOrStr kb.summary []
    ++ "\n\nSERVICE AREA:\n".data
    ++ joinIfArray kb.service_area ", ".data
    ++ "\n\nHOURS:\n".data
    ++ jsOrStr kb.hours []
    ++ "\n\nSERVICES:\n".data
    ++ joinIfArray kb.services "; ".data
    ++ "\n\nPRICING NOTES:\n".data
    ++ joinIfArray kb.pricing_notes "; ".data
    ++ "\n\nBOOKING PROCESS:\n".data
    ++ joinIfArray kb.booking_process "; ".data
    ++ "\n\nFAQ EXAMPLES:\n".data
    ++ renderFaqs kb.faqs
    ++ "\n\nStyle guidelines:\n- Be friendly, clear, and professional.\n- Use short sentences.\n- Avoid jargon.\n- ".data
    ++ (if forPhone then
          "Write as if you are speaking aloud on the phone. No bullet points, just conversational sentences.".data
        else
          "In chat, short paragraphs and simple bullet points are okay.".data)
    ++ "\n- If the caller is outside the service area or asks for work you do not handle, say so politely and suggest they contact a different type of contractor.\n- Whenever appropriate, remind them that a handyman will follow up by phone or text to confirm details and scheduling.\n".data)

-- ------------------------------------------------------------------
-- Completion client (askOpenAIForChat / askOpenAIForPhone)
-- ------------------------------------------------------------------

/-- The remote completion response as the spec treats it: a black box
carrying the HTTP success flag and status, the raw body text (read when
the status is not a success), and the optionally-chained
`choices?.[0]?.message?.content` field of the parsed JSON body (`none`
when any link of the chain is missing). -/
structure ApiResponse where
  ok : Bool
  status : Nat
  body : Str
  content : Option Str
deriving DecidableEq

/-- The message of the Error thrown on a non-success status:
`OpenAI API error ${response.status}: ${text}` — it carries the HTTP
status and the raw response body. -/
def upstreamErrorMsg (status : Nat) (body : Str) : Str :=
  "OpenAI API error ".data ++ (Nat.repr status).data ++ ": ".data ++ body

/-- Fallback sentence of the chat completion helper. -/
def chatFallbackAnswer : Str :=
  "I\x27m not sure how to answer that, but a handyman can call you back with more details.".data

/-- Fallback sentence of the phone completion helper. -/
def phoneFallbackAnswer : Str :=
  "Thank you for calling. A handyman will review your request and call you back shortly.".data

/-- askOpenAIForChat: throws on a non-success status (the request
construction only feeds the remote call, which is the black-box input
`resp`); on success extracts the first choice content with
`content || fallback` and trims it. -/
def askOpenAIForChat (resp : ApiResponse) : Except Str Str :=
  if resp.ok then
    .ok (trimStr (jsOrStr resp.content chatFallbackAnswer))
  else
    .error (upstreamErrorMsg resp.status resp.body)

/-- askOpenAIForPhone: identical control flow to the chat helper with a
different fallback sentence (and a different prompt, which only feeds the
black-box remote call). -/
def askOpenAIForPhone (resp : ApiResponse) : Except Str Str :=
  if resp.ok then
    .ok (trimStr (jsOrStr resp.content phoneFallbackAnswer))
  else
    .error (upstreamErrorMsg resp.status resp.body)

-- ------------------------------------------------------------------
-- WebSocket chat handler (ws.on("message") in the current variant)
-- ------------------------------------------------------------------

/-- The typed replies the chat handler can send. -/
inductive WsReply where
  | info : Str → WsReply
  | answer : Str → WsReply
  | error : Str → WsReply
deriving DecidableEq

/-- The inbound frame after the JSON.parse attempt: either unparseable or
a parsed JSON value. -/
inductive WsData where
  | invalid : WsData
  | json : Js → WsData

def wsInvalidJsonText : Str := "Invalid JSON".data

def wsMissingQuestionText : Str := "Missing \"question\" field in payload.".data

def wsNoKeyAnswerText (kb : KBSource) : Str :=
  "The AI backend is not fully configured yet (missing API key). Please contact Handyman of Fairfax directly at ".data
  ++ jsOrStr kb.contact_phone "(phone not set)".data
  ++ ".".data

def wsUpstreamErrorText : Str :=
  "There was a problem talking to the AI. Please try again later or call the handyman directly.".data

/-- The /ws message handler.  The JSON.parse failure path is caught; the
rest of the body runs outside any try/catch except the completion call,
so a TypeError raised by `(payload.question || "").trim()` propagates as
an unhandled fault (modelled as `Except.error`). -/
def wsMessageHandler (apiKeySet : Bool) (kb : KBSource) (data : WsData)
    (resp : ApiResponse) : Except JsFault WsReply :=
  match data with
  | .invalid => .ok (.error wsInvalidJsonText)
  | .json payload => do
    let questionVal ← getProp payload "question".data
    let question ← callTrim (if truthy questionVal then questionVal else .str [])
    if question = [] then
      pure (.error wsMissingQuestionText)
    else if !apiKeySet then
      pure (.answer (wsNoKeyAnswerText kb))
    else
      match askOpenAIForChat resp with
      | .ok answer => pure (.answer answer)
      | .error _ => pure (.error wsUpstreamErrorText)

/-- Is the handler outcome a successfully sent answer-tagged reply? -/
def isAnswerReply : Except JsFault WsReply → Bool
  | .ok (.answer _) => true
  | _ => false

/-- Did the handler terminate by sending exactly one error- or
answer-tagged reply (as opposed to faulting, which sends nothing)? -/
def sendsOneReply : Except JsFault WsReply → Bool
  | .ok (.answer _) => true
  | .ok (.error _) => true
  | _ => false

-- ------------------------------------------------------------------
-- Twilio voice webhook (current variant: app.all("/twilio-voice"),
-- legacy variant: app.post("/twilio-voice"))
-- ------------------------------------------------------------------

/-- Outcome of one webhook call: the TwiML response body actually sent,
and whether an outbound completion-API call was made while producing
it. -/
structure VoiceResult where
  body : Str
  apiCalled : Bool
deriving DecidableEq

/-- The TwiML sender: wraps the branch body in the XML declaration and
the Response element. -/
def twimlWrap (xmlBody : Str) : Str :=
  "<?xml version=\"1.0\" encoding=\"UTF-8\"?>\n<Response>".data
  ++ xmlBody ++ "</Response>".data

/-- Greeting + Gather TwiML of the current variant (first call, no
SpeechResult yet). -/
def gatherTwimlCurrent : Str :=
  ("\n      <Say voice=\"woman\">\n        Thank you for calling Handyman of Fairfax, your local home repair specialist.\n      </Say>\n      <Pause length=\"1\"/>\n      <Gather input=\"speech\" action=\"/twilio-voice\" method=\"POST\" speechTimeout=\"auto\">\n        <Say>\n          Please briefly describe what you need help with.\n          For example, you can say:\n          I need a TV mounted, or I have a leaky faucet, or my door will not close properly.\n          Then pause for a moment.\n        </Say>\n      </Gather>\n      <Say>Sorry, I did not catch that. Please call again later.</Say>\n    ").data

/-- Greeting + Gather TwiML of the legacy variant (identical except for
one prompt line). -/
def gatherTwimlLegacy : Str :=
  ("\n      <Say voice=\"woman\">\n        Thank you for calling Handyman of Fairfax, your local home repair specialist.\n      </Say>\n      <Pause length=\"1\"/>\n      <Gather input=\"speech\" action=\"/twilio-voice\" method=\"POST\" speechTimeout=\"auto\">\n        <Say>\n          Please briefly describe what you need help with.\n          For example, say something like:\n          I need a TV mounted, or I have a leaky faucet, or my door will not close properly.\n          Then pause for a moment.\n        </Say>\n      </Gather>\n      <Say>Sorry, I did not catch that. Please call again later.</Say>\n    ").data

/-- Text before the interpolated contact phone in the credential-missing
branch (same in both variants). -/
def noKeySayPre : Str :=
  ("\n      <Say>\n        Thank you. Our AI assistant is not available at this moment.\n        Please call us back at ").data

/-- Credential-missing TwiML of the current variant: it ends the call
with Hangup. -/
def noKeyTwimlCurrent (kb : KBSource) : Str :=
  noKeySayPre
  ++ escapeForXml (jsOrStr kb.contact_phone "our regular number".data)
  ++ (".\n      </Say>\n      <Hangup/>\n    ").data

/-- Credential-missing TwiML of the legacy variant: same utterance but NO
Hangup element. -/
def noKeyTwimlLegacy (kb : KBSource) : Str :=
  noKeySayPre
  ++ escapeForXml (jsOrStr kb.contact_phone "our regular number".data)
  ++ (".\n      </Say>\n    ").data

/-- Text before the interpolated (escaped) answer in the
successful-completion branch (same in both variants). -/
def answerSayPre : Str :=
  ("\n      <Say voice=\"woman\">\n        ").data

/-- Text after the interpolated answer: pause, closing utterance,
Hangup. -/
def answerSayPost : Str :=
  ("\n      </Say>\n      <Pause length=\"1\"/>\n      <Say>\n        A member of the Handyman of Fairfax team will follow up with you as soon as possible.\n        Thank you for calling. Goodbye.\n      </Say>\n      <Hangup/>\n    ").data

/-- Successful-completion TwiML (both variants). -/
def answerTwiml (answer : Str) : Str :=
  answerSayPre ++ escapeForXml answer ++ answerSayPost

/-- UpstreamError TwiML (both variants): apology + Hangup. -/
def errorTwiml : Str :=
  ("\n      <Say>\n        I am sorry, but there was a problem handling your request.\n        Please try calling again in a few minutes.\n      </Say>\n      <Hangup/>\n    ").data

/-- The /twilio-voice handler of the current variant.
`speechResultField` is the form field (absent on the first call); `resp`
is the black-box completion response consulted only on the
credential-configured answer branch. -/
def twilioVoiceHandler (apiKeySet : Bool) (kb : KBSource)
    (speechResultField : Option Str) (resp : ApiResponse) : VoiceResult :=
  let speechResult := trimStr (jsOrStr speechResultField [])
  if speechResult = [] then
    { body := twimlWrap gatherTwimlCurrent, apiCalled := false }
  else if !apiKeySet then
    { body := twimlWrap (noKeyTwimlCurrent kb), apiCalled := false }
  else
    match askOpenAIForPhone resp with
    | .ok answer => { body := twimlWrap (answerTwiml answer), apiCalled := true }
    | .error _ => { body := twimlWrap errorTwiml, apiCalled := true }

/-- The /twilio-voice handler of the legacy variant: identical control
flow, but its credential-missing branch sends no Hangup. -/
def twilioVoiceHandlerLegacy (apiKeySet : Bool) (kb : KBSource)
    (speechResultField : Option Str) (resp : ApiResponse) : VoiceResult :=
  let speechResult := trimStr (jsOrStr speechResultField [])
  if speechResult = [] then
    { body := twimlWrap gatherTwimlLegacy, apiCalled := false }
  else if !apiKeySet then
    { body := twimlWrap (noKeyTwimlLegacy kb), apiCalled := false }
  else
    match askOpenAIForPhone resp with
    | .ok answer => { body := twimlWrap (answerTwiml answer), apiCalled := true }
    | .error _ => { body := twimlWrap errorTwiml, apiCalled := true }

/-- The pattern identifying a speech-gather directive. -/
def gatherTag : Str := "<Gather".data

/-- The full Gather directive as it appears in the greeting response. -/
def gatherDirective : Str :=
  "<Gather input=\"speech\" action=\"/twilio-voice\" method=\"POST\" speechTimeout=\"auto\">".data

/-- The call-end element. -/
def hangupTag : Str := "<Hangup/>".data

-- ------------------------------------------------------------------
-- Sample values used by closed counterexamples and witnesses
-- ------------------------------------------------------------------

def respOkSample : ApiResponse :=
  { ok := true, status := 200, body := [], content := some "We can help with that.".data }

def respFailSample : ApiResponse :=
  { ok := false, status := 500, body := "Internal Server Error".data, content := none }

def questionPayload : Js := .obj [("question".data, .str "Do you mount TVs?".data)]

def numberQuestionPayload : Js := .obj [("question".data, .num 42)]

def emptyKBSource : KBSource := {}

-- ------------------------------------------------------------------
-- Containment lemmas about the voice response bodies
-- ------------------------------------------------------------------

theorem hangup_in_twimlWrap_answer (a : Str) :
    containsSub hangupTag (twimlWrap (answerTwiml a)) = true := by
  unfold twimlWrap answerTwiml
  simp only [List.append_assoc]
  apply containsSub_append_right
  apply containsSub_append_right
  apply containsSub_append_right
  decide

theorem gather_not_in_twimlWrap_answer (a : Str) :
    containsSub gatherTag (twimlWrap (answerTwiml a)) = false := by
  apply not_containsSub_of_leading ['<', 'G'] gatherTag _ (by decide)
  unfold twimlWrap answerTwiml
  simp only [List.append_assoc]
  apply containsSub_pair_append
  · decide
  · apply containsSub_pair_append
    · decide
    · apply containsSub_pair_append
      · exact containsSub_pair_eq_false_of_not_mem '<' 'G' _ (lt_not_mem_escapeForXml a)
      · decide
      · exact Or.inl (getLast?_ne_of_not_mem '<' _ (lt_not_mem_escapeForXml a))
    · exact Or.inl (by decide)
  · exact Or.inl (by decide)

theorem hangup_in_twimlWrap_error :
    containsSub hangupTag (twimlWrap errorTwiml) = true := by decide

theorem gather_not_in_twimlWrap_error :
    containsSub gatherTag (twimlWrap errorTwiml) = false := by decide

theorem escapedPhone_in_twimlWrap_noKeyCurrent (p : Str) :
    containsSub (escapeForXml p)
      (twimlWrap (noKeySayPre ++ escapeForXml p ++ (".\n      </Say>\n      <Hangup/>\n    ").data))
      = true := by
  unfold twimlWrap
  simp only [List.append_assoc]
  apply containsSub_append_right
  apply containsSub_append_right
  exact containsSub_of_parts (escapeForXml p) [] _

theorem hangup_in_twimlWrap_noKeyCurrent (p : Str) :
    containsSub hangupTag
      (twimlWrap (noKeySayPre ++ escapeForXml p ++ (".\n      </Say>\n      <Hangup/>\n    ").data))
      = true := by
  unfold twimlWrap
  simp only [List.append_assoc]
  apply containsSub_append_right
  apply containsSub_append_right
  apply containsSub_append_right
  decide

deriving instance DecidableEq for Except

/-- Is the completion-client outcome a success? -/
def isOkE : Except Str Str → Bool
  | .ok _ => true
  | .error _ => false

-- ------------------------------------------------------------------
-- Use-site defaulting lemmas: the prompt builder renders a record
-- identically to its normalization
-- ------------------------------------------------------------------

theorem jsOrStr_norm (x : Option Str) (d : Str) :
    jsOrStr (some (x.getD [])) d = jsOrStr x d := by
  cases x with
  | none => simp [jsOrStr]
  | some s => rfl

theorem joinIfArray_norm (x : Option (List Str)) (sep : Str) :
    joinIfArray (some (x.getD [])) sep = joinIfArray x sep := by
  cases x <;> rfl

theorem renderFaqs_norm (x : Option (List (Str × Str))) :
    renderFaqs (some (x.getD [])) = renderFaqs x := by
  cases x <;> rfl

theorem buildSystemPrompt_normalizeKB (kb : KBSource) (forPhone : Bool) :
    buildSystemPrompt (normalizeKB kb) forPhone = buildSystemPrompt kb forPhone := by
  unfold buildSystemPrompt normalizeKB
  simp only [jsOrStr_norm, joinIfArray_norm, renderFaqs_norm]

-- ------------------------------------------------------------------
-- Claim theorems
-- ------------------------------------------------------------------

/-- C1: the claim says every JSON payload — including one whose question
field is a non-string such as a number — gets exactly one error/answer
reply.  The code evaluates `(payload.question || "").trim()` outside any
try/catch, so a truthy non-string question (here the number 42) makes
the handler throw a TypeError: no reply is sent and the fault propagates
through the transport layer unhandled. -/
theorem C1_nonstring_question_unhandled_fault :
    wsMessageHandler true defaultKnowledgeBase (.json numberQuestionPayload) respOkSample
      = .error .typeError
    ∧ sendsOneReply
        (wsMessageHandler true defaultKnowledgeBase (.json numberQuestionPayload) respOkSample)
        = false := by
  decide

/-- C2: for every voice-webhook call whose SpeechResult is non-empty
after trimming and with a credential configured, the response contains a
Hangup element and no Gather directive — in the successful-completion
branch and in the UpstreamError branch, in both webhook variants. -/
theorem C2_voice_configured_speech_always_hangs_up (kb : KBSource)
    (speechField : Option Str) (resp : ApiResponse)
    (hs : trimStr (jsOrStr speechField []) ≠ []) :
    (containsSub hangupTag (twilioVoiceHandler true kb speechField resp).body = true
      ∧ containsSub gatherTag (twilioVoiceHandler true kb speechField resp).body = false)
    ∧ (containsSub hangupTag (twilioVoiceHandlerLegacy true kb speechField resp).body = true
      ∧ containsSub gatherTag (twilioVoiceHandlerLegacy true kb speechField resp).body = false) := by
  cases hok : resp.ok with
  | true =>
    have e1 : twilioVoiceHandler true kb speechField resp
        = { body := twimlWrap (answerTwiml (trimStr (jsOrStr resp.content phoneFallbackAnswer))),
            apiCalled := true } := by
      unfold twilioVoiceHandler askOpenAIForPhone
      simp [hs, hok]
    have e2 : twilioVoiceHandlerLegacy true kb speechField resp
        = { body := twimlWrap (answerTwiml (trimStr (jsOrStr resp.content phoneFallbackAnswer))),
            apiCalled := true } := by
      unfold twilioVoiceHandlerLegacy askOpenAIForPhone
      simp [hs, hok]
    rw [e1, e2]
    exact ⟨⟨hangup_in_twimlWrap_answer _, gather_not_in_twimlWrap_answer _⟩,
      ⟨hangup_in_twimlWrap_answer _, gather_not_in_twimlWrap_answer _⟩⟩
  | false =>
    have e1 : twilioVoiceHandler true kb speechField resp
        = { body := twimlWrap errorTwiml, apiCalled := true } := by
      unfold twilioVoiceHandler askOpenAIForPhone
      simp [hs, hok]
    have e2 : twilioVoiceHandlerLegacy true kb speechField resp
        = { body := twimlWrap errorTwiml, apiCalled := true } := by
      unfold twilioVoiceHandlerLegacy askOpenAIForPhone
      simp [hs, hok]
    rw [e1, e2]
    exact ⟨⟨hangup_in_twimlWrap_error, gather_not_in_twimlWrap_error⟩,
      ⟨hangup_in_twimlWrap_error, gather_not_in_twimlWrap_error⟩⟩

/-- C2 witness: a concrete non-empty transcript with a configured
credential, instantiated for a successful completion response. -/
theorem C2_voice_configured_speech_always_hangs_up_witness :
    (containsSub hangupTag
        (twilioVoiceHandler true defaultKnowledgeBase
          (some "I have a leaky faucet".data) respOkSample).body = true
      ∧ containsSub gatherTag
        (twilioVoiceHandler true defaultKnowledgeBase
          (some "I have a leaky faucet".data) respOkSample).body = false)
    ∧ (containsSub hangupTag
        (twilioVoiceHandlerLegacy true defaultKnowledgeBase
          (some "I have a leaky faucet".data) respOkSample).body = true
      ∧ containsSub gatherTag
        (twilioVoiceHandlerLegacy true defaultKnowledgeBase
          (some "I have a leaky faucet".data) respOkSample).body = false) :=
  C2_voice_configured_speech_always_hangs_up defaultKnowledgeBase
    (some "I have a leaky faucet".data) respOkSample (by decide)

/-- C3: for every voice-webhook call whose SpeechResult is empty or
absent after trimming, the response contains the full Gather directive
re-targeting /twilio-voice and no completion-API call is made — for any
credential configuration and in both webhook variants. -/
theorem C3_voice_empty_speech_gathers_same_path (apiKeySet : Bool) (kb : KBSource)
    (speechField : Option Str) (resp : ApiResponse)
    (hs : trimStr (jsOrStr speechField []) = []) :
    ((twilioVoiceHandler apiKeySet kb speechField resp).apiCalled = false
      ∧ containsSub gatherDirective (twilioVoiceHandler apiKeySet kb speechField resp).body = true)
    ∧ ((twilioVoiceHandlerLegacy apiKeySet kb speechField resp).apiCalled = false
      ∧ containsSub gatherDirective
          (twilioVoiceHandlerLegacy apiKeySet kb speechField resp).body = true) := by
  have e1 : twilioVoiceHandler apiKeySet kb speechField resp
      = { body := twimlWrap gatherTwimlCurrent, apiCalled := false } := by
    unfold twilioVoiceHandler
    simp [hs]
  have e2 : twilioVoiceHandlerLegacy apiKeySet kb speechField resp
      = { body := twimlWrap gatherTwimlLegacy, apiCalled := false } := by
    unfold twilioVoiceHandlerLegacy
    simp [hs]
  rw [e1, e2]
  exact ⟨⟨rfl, by decide⟩, ⟨rfl, by decide⟩⟩

/-- C3 witness: an absent SpeechResult field with a configured
credential. -/
theorem C3_voice_empty_speech_gathers_same_path_witness :
    ((twilioVoiceHandler true defaultKnowledgeBase none respOkSample).apiCalled = false
      ∧ containsSub gatherDirective
          (twilioVoiceHandler true defaultKnowledgeBase none respOkSample).body = true)
    ∧ ((twilioVoiceHandlerLegacy true defaultKnowledgeBase none respOkSample).apiCalled = false
      ∧ containsSub gatherDirective
          (twilioVoiceHandlerLegacy true defaultKnowledgeBase none respOkSample).body = true) :=
  C3_voice_empty_speech_gathers_same_path true defaultKnowledgeBase none respOkSample (by decide)

/-- C4: the answer embedded in the voice response is inserted through
escapeForXml, which maps each `&` `<` `>` occurrence to its entity and
leaves every other character unchanged (the single-pass description),
and its output is well-escaped: no raw `<` or `>` at all and every `&`
begins one of the three produced entities. -/
theorem C4_voice_answer_xml_escaped (answer : Str) :
    answerTwiml answer = answerSayPre ++ escapeForXml answer ++ answerSayPost
    ∧ escapeForXml answer = answer.flatMap escChar
    ∧ wellEscaped (escapeForXml answer) = true :=
  ⟨rfl, escapeForXml_eq_flatMap answer, by
    rw [escapeForXml_eq_flatMap]
    exact wellEscaped_flatMap answer⟩

/-- C5 counterexample: in the legacy webhook revision kept in the
repository, a non-empty SpeechResult with no credential configured and
the configured contact phone set yields a response that embeds the
escaped phone but contains NO Hangup element — the claim that the
response always contains a call-end element fails on this variant. -/
theorem C5_counterexample_legacy_noKey_lacks_hangup :
    (twilioVoiceHandlerLegacy false defaultKnowledgeBase
        (some "I have a leaky faucet".data) respOkSample).apiCalled = false
    ∧ containsSub (escapeForXml "(555) 555-5555".data)
        (twilioVoiceHandlerLegacy false defaultKnowledgeBase
          (some "I have a leaky faucet".data) respOkSample).body = true
    ∧ containsSub hangupTag
        (twilioVoiceHandlerLegacy false defaultKnowledgeBase
          (some "I have a leaky faucet".data) respOkSample).body = false := by
  refine ⟨by decide, by decide, by decide⟩

/-- C5 amended: in the current (most complete) webhook variant, every
call with a non-empty trimmed SpeechResult, no credential and a
configured contact phone gets a response embedding the escaped phone and
a Hangup element, with no outbound completion call; the legacy revision
omits only the Hangup in this branch. -/
theorem C5_current_noKey_phone_and_hangup (kb : KBSource) (speechField : Option Str)
    (resp : ApiResponse) (phone : Str)
    (hs : trimStr (jsOrStr speechField []) ≠ [])
    (hp : kb.contact_phone = some phone) (hpn : phone ≠ []) :
    (twilioVoiceHandler false kb speechField resp).apiCalled = false
    ∧ containsSub (escapeForXml phone)
        (twilioVoiceHandler false kb speechField resp).body = true
    ∧ containsSub hangupTag (twilioVoiceHandler false kb speechField resp).body = true := by
  have e1 : twilioVoiceHandler false kb speechField resp
      = { body := twimlWrap (noKeySayPre ++ escapeForXml phone
            ++ (".\n      </Say>\n      <Hangup/>\n    ").data),
          apiCalled := false } := by
    unfold twilioVoiceHandler noKeyTwimlCurrent
    rw [hp]
    simp [hs]
    simp [jsOrStr, hpn]
  rw [e1]
  exact ⟨rfl, escapedPhone_in_twimlWrap_noKeyCurrent phone,
    hangup_in_twimlWrap_noKeyCurrent phone⟩

/-- C5 witness: the end-to-end scenario input, on the current variant. -/
theorem C5_current_noKey_phone_and_hangup_witness :
    (twilioVoiceHandler false defaultKnowledgeBase
        (some "I have a leaky faucet".data) respOkSample).apiCalled = false
    ∧ containsSub (escapeForXml "(555) 555-5555".data)
        (twilioVoiceHandler false defaultKnowledgeBase
          (some "I have a leaky faucet".data) respOkSample).body = true
    ∧ containsSub hangupTag
        (twilioVoiceHandler false defaultKnowledgeBase
          (some "I have a leaky faucet".data) respOkSample).body = true :=
  C5_current_noKey_phone_and_hangup defaultKnowledgeBase
    (some "I have a leaky faucet".data) respOkSample "(555) 555-5555".data
    (by decide) rfl (by decide)

/-- C6: both completion helpers fail exactly when the remote response
has a non-success status; the raised error message carries the HTTP
status and the raw response body; and a successful response whose
first-choice message content is missing yields the fixed fallback
sentence instead of failing. -/
theorem C6_completion_client_failure_and_fallback (r1 r2 : ApiResponse)
    (h1 : r1.ok = false) (h2 : r2.ok = true) (h3 : r2.content = none) :
    askOpenAIForChat r1 = .error (upstreamErrorMsg r1.status r1.body)
    ∧ askOpenAIForPhone r1 = .error (upstreamErrorMsg r1.status r1.body)
    ∧ askOpenAIForChat r2 = .ok chatFallbackAnswer
    ∧ askOpenAIForPhone r2 = .ok phoneFallbackAnswer
    ∧ (∀ r : ApiResponse,
        isOkE (askOpenAIForChat r) = r.ok ∧ isOkE (askOpenAIForPhone r) = r.ok) := by
  refine ⟨?_, ?_, ?_, ?_, ?_⟩
  · unfold askOpenAIForChat
    rw [h1]
    rfl
  · unfold askOpenAIForPhone
    rw [h1]
    rfl
  · unfold askOpenAIForChat
    rw [h2, h3]
    exact congrArg Except.ok (by decide)
  · unfold askOpenAIForPhone
    rw [h2, h3]
    exact congrArg Except.ok (by decide)
  · intro r
    cases hok : r.ok <;> simp [askOpenAIForChat, askOpenAIForPhone, isOkE, hok]

/-- C6 witness: a concrete failing response and a concrete successful
response whose content field is missing. -/
theorem C6_completion_client_failure_and_fallback_witness :
    askOpenAIForChat respFailSample
      = .error (upstreamErrorMsg 500 "Internal Server Error".data)
    ∧ askOpenAIForChat { ok := true, status := 200, body := [], content := none }
      = .ok chatFallbackAnswer :=
  ⟨(C6_completion_client_failure_and_fallback respFailSample
      { ok := true, status := 200, body := [], content := none } rfl rfl rfl).1,
    (C6_completion_client_failure_and_fallback respFailSample
      { ok := true, status := 200, body := [], content := none } rfl rfl rfl).2.2.1⟩

/-- C7 counterexample: a well-formed chat payload with a non-empty
trimmed question and a configured credential can still get a reply
tagged error — namely when the upstream completion call fails — so the
claim that the reply is never tagged error is false as stated. -/
theorem C7_counterexample_upstream_failure_error_reply :
    isAnswerReply
      (wsMessageHandler true defaultKnowledgeBase (.json questionPayload) respFailSample)
      = false
    ∧ wsMessageHandler true defaultKnowledgeBase (.json questionPayload) respFailSample
      = .ok (.error wsUpstreamErrorText) := by
  refine ⟨by decide, by decide⟩

/-- C7 amended: with a configured credential AND a success-status
completion response, every payload whose question field is a string with
non-empty trim gets a reply tagged answer. -/
theorem C7_configured_success_reply_is_answer (kb : KBSource) (payload : Js)
    (qs : Str) (resp : ApiResponse)
    (hq : getProp payload "question".data = .ok (.str qs))
    (ht : trimStr qs ≠ [])
    (hok : resp.ok = true) :
    isAnswerReply (wsMessageHandler true kb (.json payload) resp) = true := by
  have hqe : qs ≠ [] := by
    intro h
    subst h
    exact ht rfl
  have step : wsMessageHandler true kb (.json payload) resp
      = (do
          let questionVal ← getProp payload "question".data
          let question ← callTrim (if truthy questionVal then questionVal else .str [])
          if question = [] then
            pure (.error wsMissingQuestionText)
          else if !true then
            pure (.answer (wsNoKeyAnswerText kb))
          else
            match askOpenAIForChat resp with
            | .ok answer => pure (.answer answer)
            | .error _ => pure (.error wsUpstreamErrorText)) := rfl
  rw [step, hq]
  cases qs with
  | nil => exact absurd rfl hqe
  | cons c rest =>
    show isAnswerReply
      (if trimStr (c :: rest) = [] then
        (pure (WsReply.error wsMissingQuestionText) : Except JsFault WsReply)
      else if !true then
        pure (WsReply.answer (wsNoKeyAnswerText kb))
      else
        match askOpenAIForChat resp with
        | .ok answer => pure (WsReply.answer answer)
        | .error _ => pure (WsReply.error wsUpstreamErrorText)) = true
    rw [if_neg ht]
    show isAnswerReply
      (match askOpenAIForChat resp with
      | .ok answer => pure (WsReply.answer answer)
      | .error _ => pure (WsReply.error wsUpstreamErrorText)) = true
    unfold askOpenAIForChat
    rw [hok]
    rfl

/-- C7 witness: concrete question, configured credential, successful
completion response. -/
theorem C7_configured_success_reply_is_answer_witness :
    isAnswerReply
      (wsMessageHandler true defaultKnowledgeBase (.json questionPayload) respOkSample)
      = true :=
  C7_configured_success_reply_is_answer defaultKnowledgeBase questionPayload
    "Do you mount TVs?".data respOkSample rfl (by decide) rfl

/-- C8 counterexample: load() does not normalize absent fields — loading
a parsed record with no fields leaves summary (a string field) and
services (a list field) absent, and even the built-in default record
used on load failure leaves services and faqs absent, contradicting the
claim that after load every absent list field is an empty sequence and
every absent string field the empty string. -/
theorem C8_counterexample_absent_fields_stay_absent :
    (loadKnowledgeBase (some emptyKBSource)).summary = none
    ∧ (loadKnowledgeBase (some emptyKBSource)).services = none
    ∧ (loadKnowledgeBase none).services = none
    ∧ (loadKnowledgeBase none).faqs = none :=
  ⟨rfl, rfl, rfl, rfl⟩

/-- C8 amended: load returns the parsed record unchanged (absent fields
stay absent) or the built-in default on failure; the defaulting to empty
string / empty sequence happens at each use site instead — the prompt
builder renders any record exactly as it renders its normalization, so
no rendered output distinguishes an absent field from an empty one. -/
theorem C8_load_identity_and_use_site_defaulting :
    (∀ src : KBSource, loadKnowledgeBase (some src) = src)
    ∧ loadKnowledgeBase none = defaultKnowledgeBase
    ∧ ∀ (kb : KBSource) (forPhone : Bool),
        buildSystemPrompt kb forPhone = buildSystemPrompt (normalizeKB kb) forPhone :=
  ⟨fun _ => rfl, rfl, fun kb forPhone => (buildSystemPrompt_normalizeKB kb forPhone).symm⟩

/-- C9: a successful completion response whose first-choice content is
present but equal to the empty string yields the fixed fallback sentence
(the JavaScript `||` collapses present-but-empty with absent), and that
fallback is non-empty, so the client never returns an empty answer on
the success branch. -/
theorem C9_empty_content_returns_fallback (r : ApiResponse)
    (h1 : r.ok = true) (h2 : r.content = some []) :
    askOpenAIForChat r = .ok chatFallbackAnswer
    ∧ askOpenAIForPhone r = .ok phoneFallbackAnswer
    ∧ chatFallbackAnswer ≠ [] ∧ phoneFallbackAnswer ≠ [] := by
  refine ⟨?_, ?_, by decide, by decide⟩
  · unfold askOpenAIForChat
    rw [h1, h2]
    exact congrArg Except.ok (by decide)
  · unfold askOpenAIForPhone
    rw [h1, h2]
    exact congrArg Except.ok (by decide)

/-- C9 witness: a concrete success response with present-but-empty
content. -/
theorem C9_empty_content_returns_fallback_witness :
    askOpenAIForChat { ok := true, status := 200, body := [], content := some [] }
      = .ok chatFallbackAnswer
    ∧ chatFallbackAnswer ≠ [] :=
  ⟨(C9_empty_content_returns_fallback
      { ok := true, status := 200, body := [], content := some [] } rfl rfl).1,
    (C9_empty_content_returns_fallback
      { ok := true, status := 200, body := [], content := some [] } rfl rfl).2.2.1⟩

/-- C10: for every input string, the escaper's output contains no raw
`<` and no raw `>` character (the `&` replacement runs first, so the
entities introduced for `<` and `>` are not re-escaped and every input
`<` and `>` becomes an entity). -/
theorem C10_escape_output_has_no_angle_brackets (s : Str) :
    '<' ∉ escapeForXml s ∧ '>' ∉ escapeForXml s :=
  ⟨lt_not_mem_escapeForXml s, gt_not_mem_escapeForXml s⟩
